import Mathlib

/-
  Shallow embedding of the FRAM I2C driver (src/FRAM.c, src/FRAM.h).

  The driver keeps one piece of mutable state, the static variable
  FRAM_current_adr (the AddressCache of the design).  Every operation is
  modelled as a pure function from that state (a uint32 value, taken as a
  Nat below 2^32) and from the status codes the I2C transport returns for
  the bus calls the operation issues, to a triple:
  the returned uint32, the new value of FRAM_current_adr, and the list of
  bus transfers issued (in order).

  The PSoC I2C component is an external collaborator; its status constant
  _I2C_MSTR_NO_ERROR is not part of this repository, so it is carried as
  the abstract parameter noErr in every operation.  The busy-wait loops of
  the C code poll the transport and have no effect on the modelled state,
  so the wait-mode argument is dropped.  The uint8 loop counters of
  FRAM_write_to_adr are modelled exactly (increments wrap modulo 256);
  since that loop has no structural termination bound, it is written with
  explicit fuel, and the value none stands for a run that exhausts every
  fuel, i.e. a non-terminating loop.
-/

namespace FRAM

/-! ### Constants, from FRAM.h and the macro block of FRAM.c -/

def FRAM_SLAVE_ADR : Nat := 0x50

def FRAM_ADR_MAX : Nat := 0x1ffff

def FRAM_INVALID_ADR : Nat := 0xffffffff

def FRAM_PARAMTER_ERROR : Nat := 0x200

def FRAM_NO_ERROR : Nat := 0

def FRAM_ADR_BYTES : Nat := 2

def FRAM_PS_SHIFT : Nat := 15

def FRAM_MSB_SHIFT : Nat := 8

def FRAM_PS_MASK : Nat := 0x10000

/-- Modulus of uint32 arithmetic. -/
def UINT32_MOD : Nat := 4294967296

/-- A bus transaction issued through the I2C transport: either
`_I2CMasterWriteBuf(slave, data, len, ...)` (the data list carries the
bytes, its length the len argument) or `_I2CMasterReadBuf(slave, buf,
count, ...)` (only the requested byte count is observable here). -/
inductive Transfer where
  | write (slave : Nat) (data : List Nat)
  | read (slave : Nat) (count : Nat)
deriving DecidableEq

def Transfer.isWrite : Transfer → Bool
  | .write _ _ => true
  | .read _ _ => false

/-- Observable outcome of one driver operation: the uint32 return value,
the value of the static FRAM_current_adr after the call, and the bus
transfers issued during the call, in order. -/
structure OpResult where
  ret : Nat
  cache : Nat
  transfers : List Transfer
deriving DecidableEq

/-! ### FRAM_prep_adr (FRAM.c lines 147-163)

    static uint32_t FRAM_prep_adr(uint32_t adr, uint8_t * const adr_ary)

    Returns the three bytes stored into adr_ary (each truncated to uint8):
    adr_ary[0] = adr >> FRAM_MSB_SHIFT, adr_ary[1] = adr,
    adr_ary[2] = FRAM_SLAVE_ADR | ((adr & FRAM_PS_MASK) >> FRAM_PS_SHIFT).
    none models the FRAM_PARAMTER_ERROR return for adr > FRAM_ADR_MAX. -/

def FRAM_prep_adr (adr : Nat) : Option (Nat × Nat × Nat) :=
  if adr > FRAM_ADR_MAX then none
  else some ((adr >>> FRAM_MSB_SHIFT) % 256, adr % 256,
    (FRAM_SLAVE_ADR ||| ((adr &&& FRAM_PS_MASK) >>> FRAM_PS_SHIFT)) % 256)

/-! ### FRAM_set_adr (FRAM.c lines 43-65)

    Writes the two address bytes to the bus address adr_ary[2]; on
    !(i2c_result & noErr) stores adr into FRAM_current_adr; always
    returns i2c_result (s is the status the transport returns for the
    write).  The FRAM_WAIT busy-wait only polls and is dropped. -/

def FRAM_set_adr (noErr st adr s : Nat) : OpResult :=
  (FRAM_prep_adr adr).elim ⟨FRAM_PARAMTER_ERROR, st, []⟩ (fun ary =>
    ⟨s, if s &&& noErr == 0 then adr else st,
      [Transfer.write ary.2.2 [ary.1, ary.2.1]]⟩)

/-! ### FRAM_read_current_adr (FRAM.c lines 67-87)

    buffer==NULL is modelled by the flag bufNull (the received bytes are
    not observable at this level).  On !(i2c_result & noErr) the cache
    becomes (FRAM_current_adr + count) % FRAM_ADR_MAX, the sum taken in
    uint32 arithmetic. -/

def FRAM_read_current_adr (noErr st : Nat) (bufNull : Bool) (count s : Nat) : OpResult :=
  if bufNull || count == 0 then ⟨FRAM_PARAMTER_ERROR, st, []⟩
  else
    ⟨s, if s &&& noErr == 0 then ((st + count) % UINT32_MOD) % FRAM_ADR_MAX else st,
      [Transfer.read FRAM_SLAVE_ADR count]⟩

/-! ### FRAM_read_from_adr (FRAM.c lines 89-107)

    s1 is the transport status of the internal FRAM_set_adr bus write (if
    issued), s2 of the data read. -/

def FRAM_read_from_adr (noErr st adr : Nat) (bufNull : Bool) (count s1 s2 : Nat) : OpResult :=
  if st ≠ adr then
    let r1 := FRAM_set_adr noErr st adr s1
    if r1.ret ≠ noErr then r1
    else
      let r2 := FRAM_read_current_adr noErr r1.cache bufNull count s2
      ⟨r2.ret, r2.cache, r1.transfers ++ r2.transfers⟩
  else
    FRAM_read_current_adr noErr st bufNull count s2

/-! ### FRAM_write_to_adr (FRAM.c lines 109-145)

    The copy into data_out uses uint8_t counters i and j:

        for(i=0;i<FRAM_ADR_BYTES;i++)       data_out[i]=adr_ary[i];
        for(j=0;i<FRAM_ADR_BYTES+count;i++,j++) data_out[i]=buffer[j];

    The first loop always terminates and leaves i = FRAM_ADR_BYTES with
    data_out = [adr_ary[0], adr_ary[1]]; FRAM_copy_loop models the second
    loop from that point, with the uint8 wrap of i and j made explicit.
    The guard compares i (promoted) with FRAM_ADR_BYTES + count computed
    in uint32, exactly as C integer promotion does. -/

def FRAM_copy_loop (buffer : Nat → Nat) (count : Nat) :
    Nat → Nat → Nat → List Nat → Option (List Nat)
  | 0, _, _, _ => none
  | fuel + 1, i, j, acc =>
    if i < FRAM_ADR_BYTES + count then
      FRAM_copy_loop buffer count fuel ((i + 1) % 256) ((j + 1) % 256) (acc ++ [buffer j])
    else
      some acc

def FRAM_write_to_adr (noErr st adr : Nat) (bufNull : Bool) (buffer : Nat → Nat)
    (count s fuel : Nat) : Option OpResult :=
  if bufNull || count == 0 then some ⟨FRAM_PARAMTER_ERROR, st, []⟩
  else
    (FRAM_prep_adr adr).elim (some ⟨FRAM_PARAMTER_ERROR, st, []⟩) (fun ary =>
      (FRAM_copy_loop buffer count fuel FRAM_ADR_BYTES 0 [ary.1, ary.2.1]).elim none
        (fun dataOut =>
          some ⟨s, if s &&& noErr == 0 then (adr + count) % UINT32_MOD else st,
            [Transfer.write ary.2.2 dataOut]⟩))

/-! ### Driver state -/

/-- Initial value of FRAM_current_adr (FRAM.c line 29). -/
def FRAM_initial : Nat := FRAM_INVALID_ADR

/-- The range discipline claimed for the address cache: it holds the
unknown sentinel or a value within the codec range. -/
def cacheInv (st : Nat) : Prop := st = FRAM_INVALID_ADR ∨ st ≤ FRAM_ADR_MAX

instance cacheInv.dec (st : Nat) : Decidable (cacheInv st) := by
  unfold cacheInv
  exact inferInstance

/-! ### Helper lemmas -/

lemma prep_adr_of_le {a : Nat} (h : a ≤ FRAM_ADR_MAX) :
    FRAM_prep_adr a = some ((a >>> FRAM_MSB_SHIFT) % 256, a % 256,
      (FRAM_SLAVE_ADR ||| ((a &&& FRAM_PS_MASK) >>> FRAM_PS_SHIFT)) % 256) := by
  unfold FRAM_prep_adr
  rw [if_neg (Nat.not_lt.mpr h)]

lemma prep_adr_of_gt {a : Nat} (h : FRAM_ADR_MAX < a) : FRAM_prep_adr a = none := by
  unfold FRAM_prep_adr
  rw [if_pos h]

lemma read_current_accept_cache (noErr st n s : Nat) (h1 : 1 ≤ n)
    (hacc : s &&& noErr = 0) :
    (FRAM_read_current_adr noErr st false n s).cache =
      ((st + n) % UINT32_MOD) % FRAM_ADR_MAX := by
  unfold FRAM_read_current_adr
  rw [if_neg (by simp; omega)]
  simp [hacc]

/-! ### Claim theorems: address codec -/

/-- Claim C8: for every address a at most FRAM_ADR_MAX, FRAM_prep_adr
succeeds with high byte (a right-shifted by 8, truncated to 8 bits) and
low byte (the bottom 8 bits of a), i.e. the big-endian 16-bit truncation
of a; for every a above FRAM_ADR_MAX it reports a parameter error. -/
theorem C8_prep_adr_bytes (a : Nat) :
    (a ≤ FRAM_ADR_MAX →
      ∃ b, FRAM_prep_adr a = some ((a >>> 8) % 256, a % 256, b)) ∧
    (FRAM_ADR_MAX < a → FRAM_prep_adr a = none) := by
  constructor
  · intro h
    exact ⟨_, prep_adr_of_le h⟩
  · exact prep_adr_of_gt

/-- Witness for C8, at a = 0x12345 (in range, page bit set) and
a = 0x20000 (out of range). -/
theorem C8_witness :
    ((0x12345 : Nat) ≤ FRAM_ADR_MAX ∧
      ∃ b, FRAM_prep_adr 0x12345 = some ((0x12345 >>> 8) % 256, 0x12345 % 256, b)) ∧
    (FRAM_ADR_MAX < 0x20000 ∧ FRAM_prep_adr 0x20000 = none) :=
  ⟨⟨by decide, (C8_prep_adr_bytes 0x12345).1 (by decide)⟩,
   ⟨by decide, (C8_prep_adr_bytes 0x20000).2 (by decide)⟩⟩

/-- Claim C2 (code bug evidence): the claim and the spec put the
page-select bit (bit 16 of the address) in the least-significant bit of
the bus-address byte, so the byte for an address with bit 16 set should
be FRAM_SLAVE_ADR with its low bit set, 0x51.  The code shifts the
masked bit right by FRAM_PS_SHIFT = 15, which lands it in bit 1: the
computed bus-address byte for address 0x10000 is 0x52, not 0x51. -/
theorem C2_page_bit_eval :
    FRAM_prep_adr 0x10000 = some (0, 0, 0x52) ∧
    FRAM_SLAVE_ADR ||| 1 = 0x51 ∧ (0x52 : Nat) ≠ 0x51 := by
  decide

/-- Claim C7 (counterexample): the claim says encode(0x8000) has the
page bit set relative to encode(0x0000); in fact bit 16 of 0x8000 is
clear (only bit 15 is set), so both addresses yield the identical
bus-address byte 0x50. -/
theorem C7_counterexample :
    FRAM_prep_adr 0x8000 = some (0x80, 0x00, 0x50) ∧
    FRAM_prep_adr 0x0000 = some (0x00, 0x00, 0x50) ∧
    ((FRAM_prep_adr 0x8000).getD (0, 0, 0)).2.2 =
      ((FRAM_prep_adr 0x0000).getD (0, 0, 0)).2.2 := by
  decide

/-- Claim C7 (amended): the first address whose bus-address byte differs
from that of 0x0000 is 0x10000, the address with bit 16 (the page bit)
set; its bus-address byte is FRAM_SLAVE_ADR with the shifted page bit
OR-ed in, as the codec computes it. -/
theorem C7_amended :
    ((FRAM_prep_adr 0x10000).getD (0, 0, 0)).2.2 ≠
      ((FRAM_prep_adr 0x0000).getD (0, 0, 0)).2.2 ∧
    ((FRAM_prep_adr 0x10000).getD (0, 0, 0)).2.2 =
      FRAM_SLAVE_ADR ||| ((0x10000 &&& FRAM_PS_MASK) >>> FRAM_PS_SHIFT) := by
  decide

/-! ### Claim theorems: FRAM_set_adr -/

/-- Claim C3: for every valid address adr and transport status s,
FRAM_set_adr returns s itself, updates the address cache to adr exactly
when s AND the transport no-error constant is zero, and leaves the cache
unchanged otherwise. -/
theorem C3_set_adr_cache (noErr st adr s : Nat) (h : adr ≤ FRAM_ADR_MAX) :
    (FRAM_set_adr noErr st adr s).ret = s ∧
    (s &&& noErr = 0 → (FRAM_set_adr noErr st adr s).cache = adr) ∧
    (s &&& noErr ≠ 0 → (FRAM_set_adr noErr st adr s).cache = st) := by
  unfold FRAM_set_adr
  rw [prep_adr_of_le h]
  refine ⟨rfl, fun h0 => ?_, fun h0 => ?_⟩
  · simp [Option.elim, h0]
  · simp only [Option.elim]
    rw [if_neg (by simpa using h0)]

/-- Witness for C3, at adr = 7, noErr = 1, with an accepted status
(s = 0) and a rejected one (s = 1). -/
theorem C3_witness :
    (7 : Nat) ≤ FRAM_ADR_MAX ∧
    (FRAM_set_adr 1 42 7 0).ret = 0 ∧
    ((0 : Nat) &&& 1 = 0 → (FRAM_set_adr 1 42 7 0).cache = 7) ∧
    ((1 : Nat) &&& 1 ≠ 0 → (FRAM_set_adr 1 42 7 1).cache = 42) :=
  ⟨by decide, (C3_set_adr_cache 1 42 7 0 (by decide)).1,
   (C3_set_adr_cache 1 42 7 0 (by decide)).2.1,
   (C3_set_adr_cache 1 42 7 1 (by decide)).2.2⟩

/-! ### Claim theorems: FRAM_read_current_adr -/

/-- Claim C1 (counterexample): with cached address 0 and an accepted
read of 0x1ffff bytes, the code leaves the cache at
(0 + 0x1ffff) % FRAM_ADR_MAX = 0, while the claim says
(0 + 0x1ffff) % (FRAM_ADR_MAX + 1) = 0x1ffff. -/
theorem C1_counterexample :
    (FRAM_read_current_adr 0 0 false 0x1ffff 0).cache = 0 ∧
    (0 + 0x1ffff) % (FRAM_ADR_MAX + 1) = 0x1ffff ∧
    (FRAM_read_current_adr 0 0 false 0x1ffff 0).cache ≠
      (0 + 0x1ffff) % (FRAM_ADR_MAX + 1) := by
  decide

/-- Claim C1 (amended): after an accepted FRAM_read_current_adr of n
bytes from cached address a, the cache equals (a + n) % FRAM_ADR_MAX
(the sum taken in uint32 arithmetic), i.e. modulo 0x1ffff rather than
modulo 0x20000. -/
theorem C1_amended (noErr a n s : Nat) (h1 : 1 ≤ n) (h2 : a ≤ FRAM_ADR_MAX)
    (hacc : s &&& noErr = 0) :
    (FRAM_read_current_adr noErr a false n s).cache =
      ((a + n) % UINT32_MOD) % FRAM_ADR_MAX :=
  read_current_accept_cache noErr a n s h1 hacc

/-- Witness for C1, at a = 3, n = 2, noErr = 0, s = 3. -/
theorem C1_witness :
    (1 : Nat) ≤ 2 ∧ (3 : Nat) ≤ FRAM_ADR_MAX ∧ (3 : Nat) &&& 0 = 0 ∧
    (FRAM_read_current_adr 0 3 false 2 3).cache =
      ((3 + 2) % UINT32_MOD) % FRAM_ADR_MAX :=
  ⟨by decide, by decide, by decide, C1_amended 0 3 2 3 (by decide) (by decide) (by decide)⟩

/-- Claim C10: an accepted FRAM_read_current_adr of n bytes issued while
the cache holds the sentinel FRAM_INVALID_ADR leaves the cache at
(FRAM_INVALID_ADR + n) % FRAM_ADR_MAX (uint32 sum) — a definite value
different from the sentinel, not the sentinel itself. -/
theorem C10_sentinel_read (noErr n s : Nat) (h1 : 1 ≤ n) (hacc : s &&& noErr = 0) :
    (FRAM_read_current_adr noErr FRAM_INVALID_ADR false n s).cache =
      ((FRAM_INVALID_ADR + n) % UINT32_MOD) % FRAM_ADR_MAX ∧
    (FRAM_read_current_adr noErr FRAM_INVALID_ADR false n s).cache ≠
      FRAM_INVALID_ADR := by
  have he := read_current_accept_cache noErr FRAM_INVALID_ADR n s h1 hacc
  refine ⟨he, ?_⟩
  rw [he]
  have hlt : ((FRAM_INVALID_ADR + n) % UINT32_MOD) % FRAM_ADR_MAX < FRAM_ADR_MAX :=
    Nat.mod_lt _ (by decide)
  have hgt : FRAM_ADR_MAX < FRAM_INVALID_ADR := by decide
  omega

/-- Witness for C10, at n = 1, noErr = 0, s = 0: the cache becomes
(0xffffffff + 1) % 2^32 % 0x1ffff = 0. -/
theorem C10_witness :
    (1 : Nat) ≤ 1 ∧ (0 : Nat) &&& 0 = 0 ∧
    ((FRAM_read_current_adr 0 FRAM_INVALID_ADR false 1 0).cache =
      ((FRAM_INVALID_ADR + 1) % UINT32_MOD) % FRAM_ADR_MAX ∧
     (FRAM_read_current_adr 0 FRAM_INVALID_ADR false 1 0).cache ≠
      FRAM_INVALID_ADR) :=
  ⟨by decide, by decide, C10_sentinel_read 0 1 0 (by decide) (by decide)⟩

/-! ### Claim theorems: the cache range invariant -/

lemma cacheInv_set_adr (noErr st adr s : Nat) (h : cacheInv st) :
    cacheInv (FRAM_set_adr noErr st adr s).cache := by
  unfold FRAM_set_adr
  by_cases hle : adr ≤ FRAM_ADR_MAX
  · rw [prep_adr_of_le hle]
    simp only [Option.elim]
    split
    · exact Or.inr hle
    · exact h
  · rw [prep_adr_of_gt (Nat.not_le.mp hle)]
    exact h

lemma cacheInv_read_current (noErr st : Nat) (bufNull : Bool) (count s : Nat)
    (h : cacheInv st) : cacheInv (FRAM_read_current_adr noErr st bufNull count s).cache := by
  unfold FRAM_read_current_adr
  split
  · exact h
  · simp only
    split
    · exact Or.inr (Nat.le_of_lt (Nat.mod_lt _ (by decide)))
    · exact h

lemma cacheInv_read_from (noErr st adr : Nat) (bufNull : Bool) (count s1 s2 : Nat)
    (h : cacheInv st) :
    cacheInv (FRAM_read_from_adr noErr st adr bufNull count s1 s2).cache := by
  unfold FRAM_read_from_adr
  split
  · simp only
    split
    · exact cacheInv_set_adr noErr st adr s1 h
    · exact cacheInv_read_current noErr _ bufNull count s2
        (cacheInv_set_adr noErr st adr s1 h)
  · exact cacheInv_read_current noErr st bufNull count s2 h

/-- Claim C4 (counterexample): the invariant is not preserved by every
operation.  From the initial state (cache = FRAM_INVALID_ADR), an
accepted FRAM_write_to_adr at address 0x1ffff with count 1 sets the
cache to 0x20000, which is neither the sentinel nor at most
FRAM_ADR_MAX. -/
theorem C4_counterexample :
    FRAM_write_to_adr 0 FRAM_INVALID_ADR 0x1ffff false (fun _ => 0) 1 0 5 =
      some ⟨0, 0x20000, [Transfer.write 0x52 [0xff, 0xff, 0]]⟩ ∧
    ¬ cacheInv 0x20000 := by
  constructor
  · rfl
  · decide

/-- Claim C4 (amended): FRAM_set_adr, FRAM_read_current_adr and
FRAM_read_from_adr preserve the invariant that the address cache is
either the unknown sentinel or a value at most FRAM_ADR_MAX;
FRAM_write_to_adr does not (see the counterexample). -/
theorem C4_amended (noErr st adr : Nat) (bufNull : Bool) (count s s1 s2 : Nat)
    (hinv : cacheInv st) :
    cacheInv (FRAM_set_adr noErr st adr s).cache ∧
    cacheInv (FRAM_read_current_adr noErr st bufNull count s).cache ∧
    cacheInv (FRAM_read_from_adr noErr st adr bufNull count s1 s2).cache :=
  ⟨cacheInv_set_adr noErr st adr s hinv,
   cacheInv_read_current noErr st bufNull count s hinv,
   cacheInv_read_from noErr st adr bufNull count s1 s2 hinv⟩

/-- Witness for C4, from the initial state with concrete arguments. -/
theorem C4_witness :
    cacheInv FRAM_initial ∧
    (cacheInv (FRAM_set_adr 0 FRAM_initial 5 0).cache ∧
     cacheInv (FRAM_read_current_adr 0 FRAM_initial false 3 0).cache ∧
     cacheInv (FRAM_read_from_adr 0 FRAM_initial 5 false 3 0 0).cache) :=
  ⟨by decide, C4_amended 0 FRAM_initial 5 false 3 0 0 0 (by decide)⟩

/-! ### Claim theorems: FRAM_read_from_adr -/

/-- Claim C5: for every valid address adr, non-null buffer and count at
least 1, FRAM_read_from_adr issues no bus write (set-address transfer)
when the cache equals adr exactly, and exactly one bus write otherwise;
the comparison is plain equality of the two uint32 values. -/
theorem C5_skip_optimization (noErr st adr count s1 s2 : Nat)
    (hadr : adr ≤ FRAM_ADR_MAX) (hcnt : 1 ≤ count) :
    ((FRAM_read_from_adr noErr st adr false count s1 s2).transfers.countP
      Transfer.isWrite) = if st = adr then 0 else 1 := by
  have hread : ∀ st', (FRAM_read_current_adr noErr st' false count s2).transfers =
      [Transfer.read FRAM_SLAVE_ADR count] := by
    intro st'
    unfold FRAM_read_current_adr
    rw [if_neg (by simp; omega)]
  unfold FRAM_read_from_adr
  by_cases hst : st = adr
  · rw [if_neg (not_not_intro hst), if_pos hst, hread]
    rfl
  · rw [if_pos hst]
    simp only [FRAM_set_adr, prep_adr_of_le hadr, Option.elim]
    split
    · rfl
    · rw [hread]
      rfl

/-- Witness for C5, with cache 7 and requested address 5 (one write)
and with cache 5 and requested address 5 (no write). -/
theorem C5_witness :
    (5 : Nat) ≤ FRAM_ADR_MAX ∧ (1 : Nat) ≤ 2 ∧
    ((FRAM_read_from_adr 0 7 5 false 2 0 0).transfers.countP Transfer.isWrite =
      if (7 : Nat) = 5 then 0 else 1) ∧
    ((FRAM_read_from_adr 0 5 5 false 2 0 0).transfers.countP Transfer.isWrite =
      if (5 : Nat) = 5 then 0 else 1) :=
  ⟨by decide, by decide,
   C5_skip_optimization 0 7 5 2 0 0 (by decide) (by decide),
   C5_skip_optimization 0 5 5 2 0 0 (by decide) (by decide)⟩

/-- Claim C6 (counterexample): the claim quantifies over every cache
value, but when the cache happens to hold 0x20000 (reachable: see the C4
counterexample), the equality test suppresses the address-set step and
FRAM_read_from_adr at address 0x20000 issues a bus read and returns the
transport status instead of FRAM_PARAMTER_ERROR. -/
theorem C6_counterexample :
    FRAM_read_from_adr 0 0x20000 0x20000 false 4 0 0 =
      ⟨0, 5, [Transfer.read FRAM_SLAVE_ADR 4]⟩ ∧
    (0 : Nat) ≠ FRAM_PARAMTER_ERROR := by
  decide

/-- Claim C6 (amended): for every cache value other than 0x20000 (and a
transport no-error constant distinct from the driver parameter-error
code), FRAM_read_from_adr at address 0x20000 with a non-null buffer and
count 4 returns FRAM_PARAMTER_ERROR, leaves the cache unchanged and
issues no bus transfer. -/
theorem C6_amended (noErr st s1 s2 : Nat) (h1 : st ≠ 0x20000)
    (h2 : noErr ≠ FRAM_PARAMTER_ERROR) :
    FRAM_read_from_adr noErr st 0x20000 false 4 s1 s2 =
      ⟨FRAM_PARAMTER_ERROR, st, []⟩ := by
  unfold FRAM_read_from_adr
  rw [if_pos h1]
  have hset : FRAM_set_adr noErr st 0x20000 s1 = ⟨FRAM_PARAMTER_ERROR, st, []⟩ := by
    unfold FRAM_set_adr
    rw [prep_adr_of_gt (by decide)]
    rfl
  simp only [hset]
  rw [if_pos (fun heq => h2 heq.symm)]

/-- Witness for C6, with cache 0, noErr = 0. -/
theorem C6_witness :
    (0 : Nat) ≠ 0x20000 ∧ (0 : Nat) ≠ FRAM_PARAMTER_ERROR ∧
    FRAM_read_from_adr 0 0 0x20000 false 4 0 0 = ⟨FRAM_PARAMTER_ERROR, 0, []⟩ :=
  ⟨by decide, by decide, C6_amended 0 0 0 0 (by decide) (by decide)⟩

/-! ### Claim theorems: FRAM_write_to_adr -/

lemma copy_loop_diverges (buffer : Nat → Nat) (count : Nat) (hc : 254 ≤ count) :
    ∀ fuel i j acc, i < 256 → FRAM_copy_loop buffer count fuel i j acc = none := by
  intro fuel
  induction fuel with
  | zero =>
    intro i j acc hi
    rfl
  | succ n ih =>
    intro i j acc hi
    unfold FRAM_copy_loop
    rw [if_pos]
    · exact ih _ _ _ (Nat.mod_lt _ (by omega))
    · have hb : FRAM_ADR_BYTES = 2 := rfl
      omega

/-- Claim C9 (code bug evidence): with count = 254 the copy loop of
FRAM_write_to_adr never terminates, because its uint8 counter i (at most
255, wrapping modulo 256) never reaches FRAM_ADR_BYTES + count = 256: no
amount of fuel makes the operation finish, so no transfer of 2 + 254
bytes is ever issued. -/
theorem C9_write_diverges (fuel : Nat) :
    FRAM_write_to_adr 0 FRAM_INVALID_ADR 0 false (fun _ => 0) 254 0 fuel = none := by
  have hdiv := copy_loop_diverges (fun _ => 0) 254 (by omega) fuel FRAM_ADR_BYTES 0
    [0, 0] (by decide)
  unfold FRAM_write_to_adr
  rw [if_neg (by decide), prep_adr_of_le (by decide)]
  simp only [Option.elim]
  rw [show ((0 : Nat) >>> FRAM_MSB_SHIFT) % 256 = 0 from rfl, show (0 : Nat) % 256 = 0 from rfl,
    hdiv]

end FRAM
